import Mathlib

/-!
Verification of `app.py` from `badass-simple-containers`: a FastAPI service
with a greeting endpoint backed by a PostgreSQL `users` table, plus a
listing endpoint.  The database is modelled as an explicit state:
a flag recording whether the `users` table exists, the list of rows in
insertion order, and the next value of the `SERIAL` primary key.
Request-level failures (unreachable store) are modelled by an environment
flag; store operations return `Except String` mirroring psycopg2
exceptions whose `str(e)` is the carried message.
-/

/-- A row of the `users` table: `id SERIAL PRIMARY KEY`,
`username VARCHAR(255) UNIQUE NOT NULL`,
`created_at TIMESTAMP DEFAULT CURRENT_TIMESTAMP` (timestamps as `Nat`). -/
structure UserRow where
  id : Nat
  username : String
  created_at : Nat
deriving DecidableEq, Repr

/-- The state of the relational store. -/
structure DB where
  tableCreated : Bool
  rows : List UserRow
  nextId : Nat
deriving DecidableEq, Repr

/-- Per-request environment: whether `get_db_connection()` succeeds,
the textual description of the connection exception when it fails,
and the store clock supplying `CURRENT_TIMESTAMP`. -/
structure Env where
  connOk : Bool
  errMsg : String
  now : Nat
deriving DecidableEq, Repr

/-- `str(e)` for a psycopg2 query against a missing table. -/
def missingTableMsg : String := "relation \"users\" does not exist"

/-- JSON body of a handler response: exactly the dict shapes returned by
`app.py` (`{"message": ...}`, `{"error": ...}`, `{"users": [...]}`,
each user object projected to its `username` and `created_at` fields). -/
inductive Body where
  | message (s : String)
  | error (s : String)
  | users (l : List (String × Nat))
deriving DecidableEq, Repr

/-- An HTTP response; FastAPI serves a returned dict with status 200. -/
structure HttpResponse where
  status : Nat
  body : Body
deriving DecidableEq, Repr

/-- Result of running a handler: the response, the store state after the
request, and whether a connection was acquired / explicitly closed
before the handler returned. -/
structure HandlerResult where
  resp : HttpResponse
  db : DB
  connAcquired : Bool
  connClosed : Bool
deriving DecidableEq, Repr

/-- `SELECT username, created_at FROM users WHERE username = %s` followed by
`fetchone()`: the first row matching the name, or an exception when the
table does not exist. -/
def selectUser (db : DB) (name : String) : Except String (Option UserRow) :=
  if db.tableCreated then
    Except.ok (db.rows.find? (fun r => r.username == name))
  else
    Except.error missingTableMsg

/-- `INSERT INTO users (username) VALUES (%s)`: appends a row whose `id` is
the next serial value and whose `created_at` is the store's default
(`CURRENT_TIMESTAMP`); an exception when the table does not exist or the
`UNIQUE` constraint on `username` is violated. -/
def insertUser (db : DB) (name : String) (now : Nat) : Except String DB :=
  if db.tableCreated then
    if db.rows.any (fun r => r.username == name) then
      Except.error "duplicate key value violates unique constraint \"users_username_key\""
    else
      Except.ok { db with
        rows := db.rows ++ [⟨db.nextId, name, now⟩],
        nextId := db.nextId + 1 }
  else
    Except.error missingTableMsg

/-- `ORDER BY created_at` comparison on rows. -/
def byTime (a b : UserRow) : Prop := a.created_at ≤ b.created_at

instance : DecidableRel byTime := fun a b => Nat.decLe a.created_at b.created_at

instance : IsTotal UserRow byTime := ⟨fun a b => Nat.le_total a.created_at b.created_at⟩

instance : IsTrans UserRow byTime := ⟨fun _ _ _ => Nat.le_trans⟩

/-- `SELECT username, created_at FROM users ORDER BY created_at` followed by
`fetchall()`: all rows sorted by ascending creation time, or an exception
when the table does not exist. -/
def selectAllOrdered (db : DB) : Except String (List UserRow) :=
  if db.tableCreated then
    Except.ok (db.rows.insertionSort byTime)
  else
    Except.error missingTableMsg

/-- Projection of a row to the JSON object `{"username": ..., "created_at": ...}`. -/
def projRow (r : UserRow) : String × Nat := (r.username, r.created_at)

/-- The `GET /hello/{name}` handler of `app.py` (the registry-backed
variant): select the user by name; greet an existing user, otherwise insert
and commit; any exception is caught and returned as a
`{"error": "Database error: ..."}` body.  On the exception path the
handler returns without reaching `conn.close()`. -/
def hello (env : Env) (db : DB) (name : String) : HandlerResult :=
  if env.connOk then
    match selectUser db name with
    | Except.error e =>
        ⟨⟨200, Body.error ("Database error: " ++ e)⟩, db, true, false⟩
    | Except.ok (some _) =>
        ⟨⟨200, Body.message ("Welcome back, " ++ name ++ "!")⟩, db, true, true⟩
    | Except.ok none =>
        match insertUser db name env.now with
        | Except.error e =>
            ⟨⟨200, Body.error ("Database error: " ++ e)⟩, db, true, false⟩
        | Except.ok db' =>
            ⟨⟨200, Body.message
                ("Hello, " ++ name ++ ". You\x27ve been added to the list!")⟩,
              db', true, true⟩
  else
    ⟨⟨200, Body.error ("Database error: " ++ env.errMsg)⟩, db, false, false⟩

/-- The `GET /users` handler of `app.py`: list all rows ordered by creation
time; any exception is caught and returned as a
`{"error": "Database error: ..."}` body, again without reaching
`conn.close()`. -/
def list_users (env : Env) (db : DB) : HandlerResult :=
  if env.connOk then
    match selectAllOrdered db with
    | Except.error e =>
        ⟨⟨200, Body.error ("Database error: " ++ e)⟩, db, true, false⟩
    | Except.ok rs =>
        ⟨⟨200, Body.users (rs.map projRow)⟩, db, true, true⟩
  else
    ⟨⟨200, Body.error ("Database error: " ++ env.errMsg)⟩, db, false, false⟩

/-- Body of `init_db` before its `try/except`: connect and run
`CREATE TABLE IF NOT EXISTS users (...)`, then commit. -/
def init_db_attempt (env : Env) (db : DB) : Except String DB :=
  if env.connOk then
    Except.ok { db with tableCreated := true }
  else
    Except.error env.errMsg

/-- `init_db` of `app.py`: runs the attempt and catches any exception,
returning the (unchanged) store state and the printed diagnostic. -/
def init_db (env : Env) (db : DB) : DB × String :=
  match init_db_attempt env db with
  | Except.ok db' => (db', "Database initialized successfully")
  | Except.error e => (db, "Error initializing database: " ++ e)

/-- The `startup` hook of `app.py`: just calls `init_db`. -/
def startup_event (env : Env) (db : DB) : DB × String := init_db env db

/-- Modelled from the spec: the variant-1 `GET /hello/{name}` handler.  The
repository holds two variants of the service but only variant 2's
`app.py` is under `src/`; variant 1's handler file is missing, so its
contract is taken from spec section 4.1: return
`{"message": "Hello, <name>!"}` with no validation and no side effects. -/
def hello_v1 (name : String) : HttpResponse :=
  ⟨200, Body.message ("Hello, " ++ name ++ "!")⟩

/-- The store invariant: usernames are unique within the store. -/
def Uniq (db : DB) : Prop := (db.rows.map UserRow.username).Nodup

/-! ### Helper lemmas -/

lemma list_users_state (env : Env) (db : DB) : (list_users env db).db = db := by
  cases hc : env.connOk <;> simp only [list_users, hc, Bool.false_eq_true, if_false, if_true]
  cases hs : selectAllOrdered db <;> simp

lemma find?_none_any_false (db : DB) (name : String)
    (h : db.rows.find? (fun r => r.username == name) = none) :
    db.rows.any (fun r => r.username == name) = false := by
  rw [List.any_eq_false]
  intro r hr
  have := List.find?_eq_none.1 h r hr
  simpa using this

lemma not_mem_usernames (db : DB) (name : String)
    (habs : ∀ r ∈ db.rows, r.username ≠ name) :
    name ∉ db.rows.map UserRow.username := by
  intro hmem
  obtain ⟨r, hr, hname⟩ := List.mem_map.1 hmem
  exact habs r hr hname

/-! ### Claim theorems -/

/-- C1: for every name not present in the store, `GET /hello/{name}` inserts
exactly one new row with that username (its `created_at` supplied by the
store's default clock, its `id` the next serial value), commits it, and
returns the JSON body `{"message": "Hello, <name>. You've been added to the
list!"}` with status 200. -/
theorem hello_new_user (env : Env) (db : DB) (name : String)
    (hconn : env.connOk = true) (htab : db.tableCreated = true)
    (habs : ∀ r ∈ db.rows, r.username ≠ name) :
    hello env db name =
      ⟨⟨200, Body.message ("Hello, " ++ name ++ ". You\x27ve been added to the list!")⟩,
        { db with rows := db.rows ++ [⟨db.nextId, name, env.now⟩], nextId := db.nextId + 1 },
        true, true⟩ := by
  have hf : db.rows.find? (fun r => r.username == name) = none := by
    apply List.find?_eq_none.2
    intro r hr
    simpa using habs r hr
  have ha : db.rows.any (fun r => r.username == name) = false := by
    rw [List.any_eq_false]
    intro r hr
    simpa using habs r hr
  simp [hello, hconn, selectUser, htab, hf, insertUser, ha]

/-- Witness for C1 at a concrete input: an empty (initialized) store and the
name `alice`. -/
theorem hello_new_user_witness :
    hello ⟨true, "", 5⟩ ⟨true, [], 1⟩ "alice" =
      ⟨⟨200, Body.message "Hello, alice. You\x27ve been added to the list!"⟩,
        ⟨true, [⟨1, "alice", 5⟩], 2⟩, true, true⟩ :=
  hello_new_user ⟨true, "", 5⟩ ⟨true, [], 1⟩ "alice" rfl rfl (by simp)

/-- C2: for every name already present in the store, `GET /hello/{name}`
returns the JSON body `{"message": "Welcome back, <name>!"}` with status 200
and leaves the store state unchanged. -/
theorem hello_existing_user (env : Env) (db : DB) (name : String)
    (hconn : env.connOk = true) (htab : db.tableCreated = true)
    (hmem : ∃ r ∈ db.rows, r.username = name) :
    hello env db name =
      ⟨⟨200, Body.message ("Welcome back, " ++ name ++ "!")⟩, db, true, true⟩ := by
  obtain ⟨r0, hr0, hname⟩ := hmem
  have hs : (db.rows.find? (fun r => r.username == name)).isSome := by
    rw [List.find?_isSome]
    exact ⟨r0, hr0, by simp [hname]⟩
  obtain ⟨u, hu⟩ := Option.isSome_iff_exists.1 hs
  simp [hello, hconn, selectUser, htab, hu]

/-- Witness for C2 at a concrete input: a store holding `alice`. -/
theorem hello_existing_user_witness :
    hello ⟨true, "", 7⟩ ⟨true, [⟨1, "alice", 5⟩], 2⟩ "alice" =
      ⟨⟨200, Body.message "Welcome back, alice!"⟩, ⟨true, [⟨1, "alice", 5⟩], 2⟩, true, true⟩ :=
  hello_existing_user ⟨true, "", 7⟩ ⟨true, [⟨1, "alice", 5⟩], 2⟩ "alice" rfl rfl
    ⟨⟨1, "alice", 5⟩, by simp, rfl⟩

/-- C5: for all strings `n`, the variant-1 `GET /hello/{n}` handler returns
exactly the JSON body `{"message": "Hello, <n>!"}` with status 200, with no
side effects (it is a pure function of the name). -/
theorem hello_v1_contract (n : String) :
    hello_v1 n = ⟨200, Body.message ("Hello, " ++ n ++ "!")⟩ := rfl

/-- C8: table creation at startup is idempotent: when the store is
reachable, running `init_db` on a state it already produced changes nothing
and reports success (no error, no duplicate schema since the table flag is
merely re-asserted). -/
theorem init_db_idempotent (env : Env) (db : DB) (h : env.connOk = true) :
    (init_db env (init_db env db).1).1 = (init_db env db).1 ∧
    (init_db env (init_db env db).1).2 = "Database initialized successfully" := by
  simp [init_db, init_db_attempt, h]

/-- Witness for C8 at a concrete input. -/
theorem init_db_idempotent_witness :
    (init_db ⟨true, "", 0⟩ (init_db ⟨true, "", 0⟩ ⟨false, [], 1⟩).1).1 =
        (init_db ⟨true, "", 0⟩ ⟨false, [], 1⟩).1 ∧
    (init_db ⟨true, "", 0⟩ (init_db ⟨true, "", 0⟩ ⟨false, [], 1⟩).1).2 =
        "Database initialized successfully" :=
  init_db_idempotent ⟨true, "", 0⟩ ⟨false, [], 1⟩ rfl

/-- C9: the `GET /users` handler is read-only: for every environment and
store state, the store state after the request equals the store state
before it, on the success path as well as on every failure path. -/
theorem list_users_readonly (env : Env) (db : DB) :
    (list_users env db).db = db :=
  list_users_state env db

/-- C10: if database initialization fails at startup, `init_db` catches the
exception, returns the store unchanged together with the printed
diagnostic, and the startup hook completes normally (it is a total
function, never propagating the exception). -/
theorem startup_catches_failure (env : Env) (db : DB) (e : String)
    (h : init_db_attempt env db = Except.error e) :
    startup_event env db = (db, "Error initializing database: " ++ e) := by
  simp [startup_event, init_db, h]

/-- Witness for C10 at a concrete input: an unreachable store. -/
theorem startup_catches_failure_witness :
    startup_event ⟨false, "connection refused", 0⟩ ⟨false, [], 1⟩ =
      (⟨false, [], 1⟩, "Error initializing database: " ++ "connection refused") :=
  startup_catches_failure ⟨false, "connection refused", 0⟩ ⟨false, [], 1⟩
    "connection refused" rfl

lemma uniq_append_row (db : DB) (name : String) (now nid : Nat) (h : Uniq db)
    (habs : name ∉ db.rows.map UserRow.username) :
    ((db.rows ++ [(⟨nid, name, now⟩ : UserRow)]).map UserRow.username).Nodup := by
  rw [List.map_append]
  refine h.append (List.nodup_singleton name) ?_
  intro a h1 h2
  simp only [List.map_cons, List.map_nil, List.mem_singleton] at h2
  subst h2
  exact habs h1

/-- C3: for every reachable, initialized store state, `GET /users` returns
`{"users": [...]}` containing one `{"username", "created_at"}` object per
row, for all rows (a permutation of the store), ordered by ascending
creation time; and in the concrete scenario where `alice` is registered at
time 1 and then `bob` at time 2 into a fresh store, the listing returns
`alice` before `bob`. -/
theorem list_users_contract (env : Env) (db : DB)
    (hconn : env.connOk = true) (htab : db.tableCreated = true) :
    (∃ rs : List UserRow,
        (list_users env db).resp = ⟨200, Body.users (rs.map projRow)⟩ ∧
        rs.Perm db.rows ∧ rs.Sorted byTime) ∧
    (list_users ⟨true, "", 9⟩
        (hello ⟨true, "", 2⟩ (hello ⟨true, "", 1⟩ ⟨true, [], 1⟩ "alice").db "bob").db).resp =
      ⟨200, Body.users [("alice", 1), ("bob", 2)]⟩ := by
  constructor
  · refine ⟨db.rows.insertionSort byTime, ?_,
      List.perm_insertionSort byTime db.rows, List.sorted_insertionSort byTime db.rows⟩
    simp [list_users, hconn, selectAllOrdered, htab]
  · rfl

/-- Witness for C3 at a concrete input: a store holding `bob` (time 2) before
`alice` (time 1) in insertion order. -/
theorem list_users_contract_witness :
    (∃ rs : List UserRow,
        (list_users ⟨true, "", 9⟩ ⟨true, [⟨1, "bob", 2⟩, ⟨2, "alice", 1⟩], 3⟩).resp =
          ⟨200, Body.users (rs.map projRow)⟩ ∧
        rs.Perm (⟨true, [⟨1, "bob", 2⟩, ⟨2, "alice", 1⟩], 3⟩ : DB).rows ∧
        rs.Sorted byTime) ∧
    (list_users ⟨true, "", 9⟩
        (hello ⟨true, "", 2⟩ (hello ⟨true, "", 1⟩ ⟨true, [], 1⟩ "alice").db "bob").db).resp =
      ⟨200, Body.users [("alice", 1), ("bob", 2)]⟩ :=
  list_users_contract ⟨true, "", 9⟩ ⟨true, [⟨1, "bob", 2⟩, ⟨2, "alice", 1⟩], 3⟩ rfl rfl

/-- C4: on any store-level failure (unreachable store, or a query raising
because the table is missing), both handlers catch the exception
generically and return a body whose single key is `error` with value
`"Database error: <description>"`, always with HTTP status 200, with no
distinction between kinds of failure and no retry. -/
theorem error_envelope (env : Env) (db : DB) (name : String)
    (hfail : env.connOk = false ∨ db.tableCreated = false) :
    (∃ d, (hello env db name).resp = ⟨200, Body.error ("Database error: " ++ d)⟩) ∧
    (∃ d, (list_users env db).resp = ⟨200, Body.error ("Database error: " ++ d)⟩) := by
  cases hc : env.connOk
  · exact ⟨⟨env.errMsg, by simp [hello, hc]⟩, ⟨env.errMsg, by simp [list_users, hc]⟩⟩
  · have ht : db.tableCreated = false := by
      rcases hfail with h | h
      · rw [hc] at h; cases h
      · exact h
    exact ⟨⟨missingTableMsg, by simp [hello, hc, selectUser, ht]⟩,
      ⟨missingTableMsg, by simp [list_users, hc, selectAllOrdered, ht]⟩⟩

/-- Witness for C4 at a concrete input: an unreachable store. -/
theorem error_envelope_witness :
    (∃ d, (hello ⟨false, "connection refused", 0⟩ ⟨true, [], 1⟩ "alice").resp =
        ⟨200, Body.error ("Database error: " ++ d)⟩) ∧
    (∃ d, (list_users ⟨false, "connection refused", 0⟩ ⟨true, [], 1⟩).resp =
        ⟨200, Body.error ("Database error: " ++ d)⟩) :=
  error_envelope ⟨false, "connection refused", 0⟩ ⟨true, [], 1⟩ "alice" (Or.inl rfl)

/-- C6: every operation of the service (both handlers and startup
initialization) preserves uniqueness of usernames, and every existing row
survives the operation unchanged: no row is ever updated or deleted. -/
theorem store_invariants (env : Env) (db : DB) (name : String) (h : Uniq db) :
    (Uniq (hello env db name).db ∧ ∀ r ∈ db.rows, r ∈ (hello env db name).db.rows) ∧
    (Uniq (list_users env db).db ∧ ∀ r ∈ db.rows, r ∈ (list_users env db).db.rows) ∧
    (Uniq (init_db env db).1 ∧ ∀ r ∈ db.rows, r ∈ (init_db env db).1.rows) := by
  refine ⟨?_, ?_, ?_⟩
  · cases hc : env.connOk
    · simp only [hello, hc, Bool.false_eq_true, if_false]
      exact ⟨h, fun r hr => hr⟩
    · cases ht : db.tableCreated
      · simp only [hello, hc, if_true, selectUser, ht, Bool.false_eq_true, if_false]
        exact ⟨h, fun r hr => hr⟩
      · cases hf : db.rows.find? (fun r => r.username == name) with
        | some u =>
          simp only [hello, hc, if_true, selectUser, ht, hf]
          exact ⟨h, fun r hr => hr⟩
        | none =>
          have ha := find?_none_any_false db name hf
          have habs : name ∉ db.rows.map UserRow.username := by
            intro hm
            obtain ⟨r, hr, hrn⟩ := List.mem_map.1 hm
            have := List.find?_eq_none.1 hf r hr
            simp [hrn] at this
          simp only [hello, hc, if_true, selectUser, ht, hf, insertUser, ha,
            Bool.false_eq_true, if_false]
          exact ⟨uniq_append_row db name env.now db.nextId h habs,
            fun r hr => List.mem_append_left _ hr⟩
  · rw [list_users_state]
    exact ⟨h, fun r hr => hr⟩
  · cases hc : env.connOk <;>
      simp only [init_db, init_db_attempt, hc, Bool.false_eq_true, if_false, if_true] <;>
      exact ⟨h, fun r hr => hr⟩

/-- Witness for C6 at a concrete input: a store holding `alice`. -/
theorem store_invariants_witness :
    (Uniq (hello ⟨true, "", 7⟩ ⟨true, [⟨1, "alice", 5⟩], 2⟩ "bob").db ∧
      ∀ r ∈ (⟨true, [⟨1, "alice", 5⟩], 2⟩ : DB).rows,
        r ∈ (hello ⟨true, "", 7⟩ ⟨true, [⟨1, "alice", 5⟩], 2⟩ "bob").db.rows) ∧
    (Uniq (list_users ⟨true, "", 7⟩ ⟨true, [⟨1, "alice", 5⟩], 2⟩).db ∧
      ∀ r ∈ (⟨true, [⟨1, "alice", 5⟩], 2⟩ : DB).rows,
        r ∈ (list_users ⟨true, "", 7⟩ ⟨true, [⟨1, "alice", 5⟩], 2⟩).db.rows) ∧
    (Uniq (init_db ⟨true, "", 7⟩ ⟨true, [⟨1, "alice", 5⟩], 2⟩).1 ∧
      ∀ r ∈ (⟨true, [⟨1, "alice", 5⟩], 2⟩ : DB).rows,
        r ∈ (init_db ⟨true, "", 7⟩ ⟨true, [⟨1, "alice", 5⟩], 2⟩).1.rows) :=
  store_invariants ⟨true, "", 7⟩ ⟨true, [⟨1, "alice", 5⟩], 2⟩ "bob" (by simp [Uniq])

/-- C7 as stated is false: with a reachable store whose `users` table is
missing, the `hello` handler acquires a connection, the query raises, and
the handler returns from the `except` branch without ever reaching
`conn.close()` — the connection is acquired but not closed. -/
theorem conn_close_claim_false :
    (hello ⟨true, "boom", 0⟩ ⟨false, [], 1⟩ "alice").connAcquired = true ∧
    (hello ⟨true, "boom", 0⟩ ⟨false, [], 1⟩ "alice").connClosed = false := by
  constructor <;> rfl

/-- C7 amended: each handler acquires a connection exactly when the
connection attempt succeeds, and closes it before returning exactly when
every store operation succeeds; when a store operation fails after
acquisition, the handler returns the error response without closing the
connection. -/
theorem conn_lifecycle (env : Env) (db : DB) (name : String) :
    (hello env db name).connAcquired = env.connOk ∧
    (hello env db name).connClosed = (env.connOk && db.tableCreated) ∧
    (list_users env db).connAcquired = env.connOk ∧
    (list_users env db).connClosed = (env.connOk && db.tableCreated) := by
  cases hc : env.connOk
  · simp [hello, list_users, hc]
  · cases ht : db.tableCreated
    · simp [hello, list_users, hc, selectUser, selectAllOrdered, ht]
    · cases hf : db.rows.find? (fun r => r.username == name) with
      | some u =>
        simp [hello, list_users, hc, selectUser, selectAllOrdered, ht, hf]
      | none =>
        have ha := find?_none_any_false db name hf
        simp [hello, list_users, hc, selectUser, selectAllOrdered, ht, hf, insertUser, ha]
